import Mathlib

/-!
Verification development for the Colaboratory server bootstrap and lifecycle
core (`colaboratory/colaboratory.py`).  The Python source is shallowly
embedded: pure helpers become Lean functions, the bind loop and the
signal/confirmation machinery become explicit state-passing functions, and
randomness and the operating system are oracles passed in as arguments.
Machine integers of Python are unbounded, so ports are modelled as `Int`.
-/

/-- Embedding of `random_ports(port, n)`: the first `min 5 n` yielded values
are `port + i` for `i = 0, 1, ...`; the remaining `n - 5` (none when `n ≤ 5`,
by Python `range` on a non-positive argument) are `max 1 (port + d)` where
`d` is the result of `random.randint(-2*n, 2*n)`.  The successive `randint`
results are supplied by the oracle `draws`; hypotheses on `draws` encode the
inclusive `randint` range where a theorem needs it. -/
def random_ports (port : Int) (n : Nat) (draws : Nat → Int) : List Int :=
  (List.range (min 5 n)).map (fun (i : Nat) => port + (i : Int)) ++
  (List.range (n - 5)).map (fun i => max 1 (port + draws i))

/-- C2: for every retryBudget `n ≥ 0` the allocator, called as
`random_ports(self.port, self.port_retries+1)`, generates exactly `n + 1`
candidates, and the first `min 5 (n+1)` are sequential from the base port. -/
theorem c2_port_allocator_candidate_count (basePort : Int) (n : Nat) (draws : Nat → Int) :
    (random_ports basePort (n + 1) draws).length = n + 1 ∧
    (random_ports basePort (n + 1) draws).take (min 5 (n + 1)) =
      (List.range (min 5 (n + 1))).map (fun (i : Nat) => basePort + (i : Int)) := by
  constructor
  · rw [random_ports, List.length_append, List.length_map, List.length_map,
      List.length_range, List.length_range]
    omega
  · rw [random_ports]
    exact List.take_left' (by rw [List.length_map, List.length_range])

/-- C3 (amended): every pseudo-random candidate lies in the closed interval
from `basePort - 2*(retryBudget+1)` to `basePort + 2*(retryBudget+1)`,
clamped to a minimum of 1 (the code draws `randint(-2*n, 2*n)` with
`n = retryBudget + 1`, not `n = retryBudget`). -/
theorem c3_random_candidate_bounds (basePort : Int) (retryBudget : Nat) (draws : Nat → Int)
    (hdraws : ∀ i, -(2 * ((retryBudget : Int) + 1)) ≤ draws i ∧
      draws i ≤ 2 * ((retryBudget : Int) + 1)) :
    ∀ c ∈ (random_ports basePort (retryBudget + 1) draws).drop (min 5 (retryBudget + 1)),
      max 1 (basePort - 2 * ((retryBudget : Int) + 1)) ≤ c ∧
      c ≤ max 1 (basePort + 2 * ((retryBudget : Int) + 1)) := by
  intro c hc
  rw [random_ports,
    List.drop_left' (by rw [List.length_map, List.length_range])] at hc
  simp only [List.mem_map, List.mem_range] at hc
  obtain ⟨i, _, rfl⟩ := hc
  have hd := hdraws i
  constructor
  · omega
  · omega

/-- C3 witness: at `basePort = 100`, `retryBudget = 5` and all draws `0`, the
single random candidate `100` satisfies the amended bounds. -/
theorem c3_random_candidate_bounds_witness :
    max 1 ((100 : Int) - 2 * (((5 : Nat) : Int) + 1)) ≤ 100 ∧
    (100 : Int) ≤ max 1 (100 + 2 * (((5 : Nat) : Int) + 1)) :=
  c3_random_candidate_bounds 100 5 (fun _ => 0)
    (fun _ => by norm_num) 100 (by decide)

/-- C3 counterexample: with `basePort = 100` and `retryBudget = 5`, the draw
`12` is inside the inclusive `randint` range `[-2*6, 2*6]` that the code
actually uses, and it produces the candidate `112`, which exceeds
`basePort + 2*retryBudget = 110`: the interval claimed in C3 is too narrow. -/
theorem c3_counterexample :
    (-(2 * (6 : Int)) ≤ 12 ∧ (12 : Int) ≤ 2 * 6) ∧
    (random_ports 100 (5 + 1) (fun _ => 12)).drop (min 5 (5 + 1)) = [112] ∧
    ¬ ((112 : Int) ≤ 100 + 2 * 5) := by
  refine ⟨by norm_num, by decide, by norm_num⟩

/-- Outcome of one attempt `self.http_server.listen(port, self.ip)` in
`init_webapp` (lines 410-420): Python distinguishes success, `socket.error`
with `errno.EADDRINUSE`, `socket.error` with `errno.EACCES` (or
`WSAEACCES`), and any other `socket.error`. -/
inductive BindOutcome
  | success
  | inUse
  | permDenied
  | otherError
deriving DecidableEq, Repr

/-- How the bind loop of `init_webapp` can end without a successful bind:
candidate exhaustion (the `if not success:` branch, lines 425-428) or an
unhandled `socket.error` re-raised by the bare `raise` (line 420). -/
inductive LoopExit
  | noAvailablePort
  | socketError (port : Int)
deriving DecidableEq, Repr

/-- Embedding of the `for port in random_ports(...)` loop of `init_webapp`
(lines 408-424).  `binder` is the oracle for `listen`; on success the loop
sets `self.port = port` and breaks (the returned pair is the bound port and
the total number of bind attempts made); `EADDRINUSE` and `EACCES` continue
to the next candidate; any other `socket.error` is re-raised. -/
def bindLoop (binder : Int → BindOutcome) : List Int → Nat → Except LoopExit (Int × Nat)
  | [], _ => .error .noAvailablePort
  | p :: rest, attempts =>
    match binder p with
    | .success => .ok (p, attempts + 1)
    | .inUse => bindLoop binder rest (attempts + 1)
    | .permDenied => bindLoop binder rest (attempts + 1)
    | .otherError => .error (.socketError p)

theorem bindLoop_cons_inUse {binder : Int → BindOutcome} {p : Int}
    (rest : List Int) (attempts : Nat) (h : binder p = .inUse) :
    bindLoop binder (p :: rest) attempts = bindLoop binder rest (attempts + 1) := by
  simp [bindLoop, h]

theorem bindLoop_cons_permDenied {binder : Int → BindOutcome} {p : Int}
    (rest : List Int) (attempts : Nat) (h : binder p = .permDenied) :
    bindLoop binder (p :: rest) attempts = bindLoop binder rest (attempts + 1) := by
  simp [bindLoop, h]

theorem bindLoop_cons_success {binder : Int → BindOutcome} {p : Int}
    (rest : List Int) (attempts : Nat) (h : binder p = .success) :
    bindLoop binder (p :: rest) attempts = .ok (p, attempts + 1) := by
  simp [bindLoop, h]

theorem bindLoop_cons_otherError {binder : Int → BindOutcome} {p : Int}
    (rest : List Int) (attempts : Nat) (h : binder p = .otherError) :
    bindLoop binder (p :: rest) attempts = .error (.socketError p) := by
  simp [bindLoop, h]

/-- C4: the bind loop continues past an in-use or permission-denied
candidate, aborts at once (re-raising) on any other bind failure, stops at
the first success recording that port, and in the concrete scenario of
"in use" at `P, P+1, P+2` and success at `P+3` (with at least 3 retries so
the sequential candidates reach `P+3`) it returns port `P+3` after exactly
4 attempts. -/
theorem c4_bind_loop_retry (binder : Int → BindOutcome) :
    (∀ (p : Int) (rest : List Int) (attempts : Nat),
       binder p = .inUse ∨ binder p = .permDenied →
       bindLoop binder (p :: rest) attempts = bindLoop binder rest (attempts + 1)) ∧
    (∀ (p : Int) (rest : List Int) (attempts : Nat), binder p = .otherError →
       bindLoop binder (p :: rest) attempts = .error (.socketError p)) ∧
    (∀ (p : Int) (rest : List Int) (attempts : Nat), binder p = .success →
       bindLoop binder (p :: rest) attempts = .ok (p, attempts + 1)) ∧
    (∀ (P : Int) (n : Nat) (draws : Nat → Int), 3 ≤ n →
       binder P = .inUse → binder (P + 1) = .inUse → binder (P + 2) = .inUse →
       binder (P + 3) = .success →
       bindLoop binder (random_ports P (n + 1) draws) 0 = .ok (P + 3, 4)) := by
  refine ⟨?_, ?_, ?_, ?_⟩
  · rintro p rest attempts (h | h)
    · exact bindLoop_cons_inUse rest attempts h
    · exact bindLoop_cons_permDenied rest attempts h
  · intro p rest attempts h
    exact bindLoop_cons_otherError rest attempts h
  · intro p rest attempts h
    exact bindLoop_cons_success rest attempts h
  · intro P n draws hn h0 h1 h2 h3
    have hmin : min 5 (n + 1) = 4 ∨ min 5 (n + 1) = 5 := by omega
    rcases hmin with hm | hm
    · rw [random_ports, hm]
      have hr : List.range 4 = [0, 1, 2, 3] := by decide
      rw [hr]
      simp only [List.map_cons, List.map_nil, List.cons_append, List.nil_append]
      norm_num
      rw [bindLoop_cons_inUse _ _ h0, bindLoop_cons_inUse _ _ h1,
        bindLoop_cons_inUse _ _ h2, bindLoop_cons_success _ _ h3]
    · rw [random_ports, hm]
      have hr : List.range 5 = [0, 1, 2, 3, 4] := by decide
      rw [hr]
      simp only [List.map_cons, List.map_nil, List.cons_append, List.nil_append]
      norm_num
      rw [bindLoop_cons_inUse _ _ h0, bindLoop_cons_inUse _ _ h1,
        bindLoop_cons_inUse _ _ h2, bindLoop_cons_success _ _ h3]

/-- A binder for which every port below 103 is busy and 103 is free. -/
def busyBelow103 : Int → BindOutcome :=
  fun q => if q < 103 then .inUse else .success

/-- C4 witness: with base port 100, three in-use ports and success at 103,
the loop binds 103 after exactly 4 attempts. -/
theorem c4_bind_loop_retry_witness :
    bindLoop busyBelow103 (random_ports 100 (3 + 1) (fun _ => 0)) 0 =
      .ok (100 + 3, 4) :=
  (c4_bind_loop_retry busyBelow103).2.2.2 100 3 (fun _ => 0) (by norm_num)
    (by decide) (by decide) (by decide) (by decide)

/-- The configurable traits of `ColaboratoryApp` that the lifecycle core
reads: `ip` (default `127.0.0.1`), `port` (default 8844), `port_retries`
(default 50), `certfile` and `keyfile` (default empty = unset). -/
structure Config where
  ip : String
  port : Int
  port_retries : Nat
  certfile : String
  keyfile : String
deriving DecidableEq, Repr

/-- The `ssl_options` dict handed to `httpserver.HTTPServer`. -/
structure SslOptions where
  certfile : String
  keyfile : Option String
deriving DecidableEq, Repr

/-- Embedding of lines 391-396 of `init_webapp`: Python string truthiness is
non-emptiness, so `ssl_options` is built exactly when `certfile` is
non-empty, and then carries `keyfile` only when that is non-empty too;
with an empty `certfile` the result is `None` whatever `keyfile` holds. -/
def ssl_options (certfile keyfile : String) : Option SslOptions :=
  if certfile ≠ "" then
    some { certfile := certfile,
           keyfile := if keyfile ≠ "" then some keyfile else none }
  else
    none

/-- Result of `init_webapp`: a successful bind (with the computed
`ssl_options`, the recorded `self.port` and the number of bind attempts), or
`self.exit(1)` after exhausting all candidates, or an unhandled
`socket.error` propagating out. -/
inductive InitResult
  | ok (sslOpts : Option SslOptions) (boundPort : Int) (attempts : Nat)
  | exitFatal (code : Nat)
  | raisedSocketError (port : Int)
deriving DecidableEq, Repr

/-- Embedding of `init_webapp` (lines 383-428): build `ssl_options`, then
run the bind loop over `random_ports(self.port, self.port_retries+1)`.
There is no configuration validation anywhere in this method: nothing
rejects a `keyfile` supplied without a `certfile`. -/
def init_webapp (cfg : Config) (binder : Int → BindOutcome) (draws : Nat → Int) :
    InitResult :=
  let sslOpts := ssl_options cfg.certfile cfg.keyfile
  match bindLoop binder (random_ports cfg.port (cfg.port_retries + 1) draws) 0 with
  | .ok (p, a) => .ok sslOpts p a
  | .error .noAvailablePort => .exitFatal 1
  | .error (.socketError p) => .raisedSocketError p

/-- The `proto` local of `_url` (line 441). -/
def url_proto (certfile : String) : String :=
  if certfile ≠ "" then "https" else "http"

/-- Embedding of `_url` (lines 440-442). -/
def _url (certfile ip : String) (port : Int) : String :=
  url_proto certfile ++ "://" ++ ip ++ ":" ++ toString port

/-- Embedding of `connection_url` (lines 435-438): empty `ip` (listen on
all addresses) displays as `localhost`. -/
def connection_url (cfg : Config) (boundPort : Int) : String :=
  _url cfg.certfile (if cfg.ip ≠ "" then cfg.ip else "localhost") boundPort

/-- The JSONable dict returned by `server_info` (lines 540-546). -/
structure ServerInfo where
  url : String
  hostname : String
  port : Int
  secure : Bool
deriving DecidableEq, Repr

/-- Embedding of `server_info` (lines 540-546); `secure` is
`bool(self.certfile)`, i.e. non-emptiness of the certificate path. -/
def server_info (cfg : Config) (boundPort : Int) : ServerInfo :=
  { url := connection_url cfg boundPort,
    hostname := if cfg.ip ≠ "" then cfg.ip else "localhost",
    port := boundPort,
    secure := cfg.certfile != "" }

/-- A configuration with a private key file but no certificate file. -/
def keyOnlyConfig : Config :=
  { ip := "127.0.0.1", port := 8844, port_retries := 0,
    certfile := "", keyfile := "/etc/ssl/colab.key" }

/-- C1 counterexample: `keyOnlyConfig` has a keyfile and no certfile, yet
`init_webapp` performs no configuration validation: with a binder that
succeeds immediately the app proceeds to bind (one attempt is made and
succeeds, with TLS silently disabled), so the configuration is not rejected
at startup and a bind attempt is made. -/
theorem c1_counterexample :
    keyOnlyConfig.keyfile ≠ "" ∧ keyOnlyConfig.certfile = "" ∧
    init_webapp keyOnlyConfig (fun _ => .success) (fun _ => 0) =
      .ok none 8844 1 := by
  refine ⟨by decide, rfl, rfl⟩

/-- C1 (amended): a keyfile configured without a certfile is not rejected;
`ssl_options` is `None` (TLS silently disabled) and initialization behaves
exactly as if no keyfile had been configured. -/
theorem c1_keyfile_without_certfile_not_rejected (cfg : Config)
    (binder : Int → BindOutcome) (draws : Nat → Int) (hcert : cfg.certfile = "") :
    ssl_options cfg.certfile cfg.keyfile = none ∧
    init_webapp cfg binder draws = init_webapp { cfg with keyfile := "" } binder draws := by
  constructor
  · simp [ssl_options, hcert]
  · simp [init_webapp, ssl_options, hcert]

/-- C1 witness: the amended statement evaluated at `keyOnlyConfig`. -/
theorem c1_keyfile_without_certfile_not_rejected_witness :
    ssl_options keyOnlyConfig.certfile keyOnlyConfig.keyfile = none ∧
    init_webapp keyOnlyConfig (fun _ => .success) (fun _ => 0) =
      init_webapp { keyOnlyConfig with keyfile := "" } (fun _ => .success) (fun _ => 0) :=
  c1_keyfile_without_certfile_not_rejected keyOnlyConfig (fun _ => .success)
    (fun _ => 0) rfl

/-- C10: the discovery record's `secure` flag and the URL scheme depend only
on non-emptiness of `certfile` — `secure = true` and scheme `https` exactly
when `certfile` is set — and with an empty `certfile` any configured
`keyfile` is ignored (`ssl_options = None`, `secure = false`). -/
theorem c10_secure_iff_certfile (cfg : Config) (boundPort : Int) :
    ((server_info cfg boundPort).secure = true ↔ cfg.certfile ≠ "") ∧
    (url_proto cfg.certfile = "https" ↔ cfg.certfile ≠ "") ∧
    (cfg.certfile = "" →
      ssl_options cfg.certfile cfg.keyfile = none ∧
      (server_info cfg boundPort).secure = false) := by
  by_cases hc : cfg.certfile = ""
  · refine ⟨?_, ?_, fun _ => ⟨by simp [ssl_options, hc], by simp [server_info, hc]⟩⟩
    · simp [server_info, hc]
    · rw [url_proto, if_neg (fun hne => hne hc)]
      simp [hc]
  · refine ⟨?_, ?_, fun h => absurd h hc⟩
    · simp [server_info, bne_iff_ne, hc]
    · rw [url_proto, if_pos hc]
      simp [hc]

/-- A configuration with a certificate file set. -/
def tlsConfig : Config :=
  { ip := "127.0.0.1", port := 8844, port_retries := 50,
    certfile := "/etc/ssl/colab.crt", keyfile := "" }

/-- C10 witness: with a certificate configured, `secure` is true and the
scheme is `https`; and at `keyOnlyConfig` (keyfile only) `ssl_options` is
`None` and `secure` is false. -/
theorem c10_secure_iff_certfile_witness :
    (server_info tlsConfig 8844).secure = true ∧
    url_proto tlsConfig.certfile = "https" ∧
    ssl_options keyOnlyConfig.certfile keyOnlyConfig.keyfile = none ∧
    (server_info keyOnlyConfig 8844).secure = false :=
  ⟨(c10_secure_iff_certfile tlsConfig 8844).1.mpr (by decide),
   (c10_secure_iff_certfile tlsConfig 8844).2.1.mpr (by decide),
   ((c10_secure_iff_certfile keyOnlyConfig 8844).2.2 rfl).1,
   ((c10_secure_iff_certfile keyOnlyConfig 8844).2.2 rfl).2⟩

/-- Observable effects of `initialize` followed by `start`: whether a port
was bound (and which), whether the discovery record was written, whether the
serving loop was entered, and whether the process terminated early with an
exit status. -/
structure StartupTrace where
  boundPort : Option Int
  infoFileWritten : Bool
  servingLoopEntered : Bool
  exitCode : Option Nat
deriving DecidableEq, Repr

/-- Embedding of the startup ordering: `initialize` (line 515) runs
`init_webapp`; `self.exit(1)` there terminates the process before `start`
(lines 564-590) ever runs, so neither `write_server_info_file` (line 577)
nor the `ioloop.IOLoop.instance().start()` serving loop (line 590) is
reached; an unhandled `socket.error` likewise propagates out of
`initialize`.  On a successful bind, `start` writes the discovery record
and enters the serving loop. -/
def run_startup (cfg : Config) (binder : Int → BindOutcome) (draws : Nat → Int) :
    StartupTrace :=
  match init_webapp cfg binder draws with
  | .exitFatal c =>
      { boundPort := none, infoFileWritten := false,
        servingLoopEntered := false, exitCode := some c }
  | .raisedSocketError _ =>
      { boundPort := none, infoFileWritten := false,
        servingLoopEntered := false, exitCode := none }
  | .ok _ p _ =>
      { boundPort := some p, infoFileWritten := true,
        servingLoopEntered := true, exitCode := none }

theorem bindLoop_all_retryable (binder : Int → BindOutcome) (l : List Int)
    (h : ∀ p ∈ l, binder p = .inUse ∨ binder p = .permDenied) :
    ∀ attempts, bindLoop binder l attempts = .error .noAvailablePort := by
  induction l with
  | nil => intro attempts; rfl
  | cons p rest ih =>
    intro attempts
    have hrest : ∀ q ∈ rest, binder q = .inUse ∨ binder q = .permDenied :=
      fun q hq => h q (List.mem_cons_of_mem p hq)
    rcases h p (List.mem_cons_self p rest) with h1 | h1
    · rw [bindLoop_cons_inUse rest attempts h1]
      exact ih hrest (attempts + 1)
    · rw [bindLoop_cons_permDenied rest attempts h1]
      exact ih hrest (attempts + 1)

/-- C5: if every generated candidate fails with a retryable error, the
process terminates with the non-zero status 1, the serving loop is never
entered and no discovery record is written. -/
theorem c5_exhaustion_is_fatal (cfg : Config) (binder : Int → BindOutcome)
    (draws : Nat → Int)
    (hall : ∀ p ∈ random_ports cfg.port (cfg.port_retries + 1) draws,
        binder p = .inUse ∨ binder p = .permDenied) :
    (run_startup cfg binder draws).exitCode = some 1 ∧
    (∀ c, (run_startup cfg binder draws).exitCode = some c → c ≠ 0) ∧
    (run_startup cfg binder draws).servingLoopEntered = false ∧
    (run_startup cfg binder draws).infoFileWritten = false := by
  have hb := bindLoop_all_retryable binder
    (random_ports cfg.port (cfg.port_retries + 1) draws) hall 0
  refine ⟨?_, ?_, ?_, ?_⟩ <;>
    simp [run_startup, init_webapp, hb]

/-- A configuration with a small retry budget, for concrete evaluation. -/
def smallConfig : Config :=
  { ip := "127.0.0.1", port := 8844, port_retries := 2,
    certfile := "", keyfile := "" }

/-- C5 witness: with every port in use, startup at `smallConfig` exits with
status 1, never entering the serving loop and never writing the record. -/
theorem c5_exhaustion_is_fatal_witness :
    (run_startup smallConfig (fun _ => .inUse) (fun _ => 0)).exitCode = some 1 ∧
    (run_startup smallConfig (fun _ => .inUse) (fun _ => 0)).servingLoopEntered = false ∧
    (run_startup smallConfig (fun _ => .inUse) (fun _ => 0)).infoFileWritten = false :=
  ⟨(c5_exhaustion_is_fatal smallConfig (fun _ => .inUse) (fun _ => 0)
      (fun _ _ => Or.inl rfl)).1,
   (c5_exhaustion_is_fatal smallConfig (fun _ => .inUse) (fun _ => 0)
      (fun _ _ => Or.inl rfl)).2.2.1,
   (c5_exhaustion_is_fatal smallConfig (fun _ => .inUse) (fun _ => 0)
      (fun _ _ => Or.inl rfl)).2.2.2⟩

/-- The error number carried by an `OSError`; the code only distinguishes
`errno.ENOENT` from everything else (lines 560-562). -/
inductive Errno
  | ENOENT
  | other (code : Nat)
deriving DecidableEq, Repr

/-- Behavior of `os.unlink(self.info_file)` on a real file system whose only
relevant state is whether the info file exists: unlinking an existing file
removes it, unlinking a missing file raises `OSError` with `ENOENT`. -/
def os_unlink (fileExists : Bool) : Except Errno Bool :=
  if fileExists then .ok false else .error .ENOENT

/-- Embedding of `remove_server_info_file` (lines 553-562): call `unlink`
(an oracle covering file systems that can also fail in other ways, e.g.
permissions); re-raise the `OSError` unless its errno is `ENOENT`, in which
case the state is returned unchanged and no error escapes. -/
def remove_server_info_file (unlink : Bool → Except Errno Bool)
    (fileExists : Bool) : Except Errno Bool :=
  match unlink fileExists with
  | .ok fs => .ok fs
  | .error e => if e = .ENOENT then .ok fileExists else .error e

/-- C6: removal is idempotent — on the real file system it always succeeds
(in particular a second removal after a first never raises, the `ENOENT` of
the missing file being swallowed) — while an unlink failure with any errno
other than `ENOENT` is re-raised to the caller. -/
theorem c6_remove_idempotent (unlink : Bool → Except Errno Bool)
    (fileExists : Bool) (e : Errno) :
    (remove_server_info_file os_unlink fileExists = .ok false) ∧
    (∀ fs2, remove_server_info_file os_unlink fileExists = .ok fs2 →
       remove_server_info_file os_unlink fs2 = .ok false) ∧
    (unlink fileExists = .error .ENOENT →
       remove_server_info_file unlink fileExists = .ok fileExists) ∧
    (unlink fileExists = .error e → e ≠ .ENOENT →
       remove_server_info_file unlink fileExists = .error e) := by
  refine ⟨?_, ?_, ?_, ?_⟩
  · cases fileExists <;> rfl
  · intro fs2 h2
    have hfs : fs2 = false := by
      cases fileExists <;> simp_all [remove_server_info_file, os_unlink]
    subst hfs
    rfl
  · intro h
    simp [remove_server_info_file, h]
  · intro h hne
    simp [remove_server_info_file, h, hne]

/-- C6 witness: removing with the file present succeeds, removing again
succeeds (no raise), and a permissions-style failure (errno 13) is
surfaced. -/
theorem c6_remove_idempotent_witness :
    remove_server_info_file os_unlink true = .ok false ∧
    remove_server_info_file os_unlink false = .ok false ∧
    remove_server_info_file (fun _ => .error (.other 13)) true =
      .error (.other 13) :=
  ⟨(c6_remove_idempotent os_unlink true (.other 13)).1,
   (c6_remove_idempotent os_unlink true (.other 13)).2.1 false rfl,
   (c6_remove_idempotent (fun _ => .error (.other 13)) true (.other 13)).2.2.2
     rfl (by decide)⟩

/-- An exception raised by the compute-session collaborator
`kernel_manager.shutdown_all()` (line 532). -/
structure SessionError where
  msg : String
deriving DecidableEq, Repr

/-- The two statements of the `finally:` block of `start` (lines 593-595). -/
inductive ShutdownStep
  | shutdownKernels
  | removeInfoFile
deriving DecidableEq, Repr

/-- What, if anything, escapes the `finally:` block. -/
inductive ShutdownRaise
  | nothing
  | sessionError (e : SessionError)
  | removalError (e : Errno)
deriving DecidableEq, Repr

/-- Embedding of the `finally:` block of `start` (lines 593-595):
`self.cleanup_kernels()` (which logs and calls the collaborator
`shutdown_all`, lines 525-532) runs first; by Python exception semantics an
exception it raises propagates and the following
`self.remove_server_info_file()` statement does not execute.  The result is
the list of steps that executed, the final file-system state, and what
escaped the block. -/
def start_finally (shutdownAll : Except SessionError Unit) (fileExists : Bool) :
    List ShutdownStep × Bool × ShutdownRaise :=
  match shutdownAll with
  | .error e => ([.shutdownKernels], fileExists, .sessionError e)
  | .ok _ =>
    match remove_server_info_file os_unlink fileExists with
    | .ok fs => ([.shutdownKernels, .removeInfoFile], fs, .nothing)
    | .error e2 => ([.shutdownKernels, .removeInfoFile], fileExists, .removalError e2)

/-- A concrete collaborator failure. -/
def zmqError : SessionError := { msg := "zmq send failed" }

/-- C9 counterexample: when `shutdown_all` raises, the record-removal step
does not execute — the info file is still present and the exception
propagates — contradicting the claim that a session-shutdown failure does
not block removal of the discovery record. -/
theorem c9_counterexample :
    start_finally (.error zmqError) true =
      ([ShutdownStep.shutdownKernels], true, ShutdownRaise.sessionError zmqError) ∧
    ShutdownStep.removeInfoFile ∉ [ShutdownStep.shutdownKernels] := by
  exact ⟨rfl, by decide⟩

/-- C9 (amended): kernel shutdown always runs first; when `shutdown_all`
returns normally, record removal executes next and the file is removed; but
when `shutdown_all` raises, the exception propagates out of the `finally:`
block and record removal does not execute. -/
theorem c9_shutdown_ordering (shutdownAll : Except SessionError Unit)
    (fileExists : Bool) :
    ((start_finally shutdownAll fileExists).1.head? = some .shutdownKernels) ∧
    (shutdownAll = .ok () →
       (start_finally shutdownAll fileExists).1 =
         [.shutdownKernels, .removeInfoFile] ∧
       (start_finally shutdownAll fileExists).2.1 = false) ∧
    (∀ e, shutdownAll = .error e →
       (start_finally shutdownAll fileExists).1 = [.shutdownKernels] ∧
       (start_finally shutdownAll fileExists).2.2 = .sessionError e) := by
  refine ⟨?_, ?_, ?_⟩
  · cases shutdownAll <;> cases fileExists <;> rfl
  · rintro rfl
    cases fileExists <;> exact ⟨rfl, rfl⟩
  · rintro e rfl
    exact ⟨rfl, rfl⟩

/-- C9 witness: the amended statement evaluated on a normal shutdown with
the info file present, and on a raising shutdown. -/
theorem c9_shutdown_ordering_witness :
    ((start_finally (.ok ()) true).1 =
       [ShutdownStep.shutdownKernels, ShutdownStep.removeInfoFile] ∧
     (start_finally (.ok ()) true).2.1 = false) ∧
    ((start_finally (.error zmqError) true).1 = [ShutdownStep.shutdownKernels] ∧
     (start_finally (.error zmqError) true).2.2 =
       ShutdownRaise.sessionError zmqError) :=
  ⟨(c9_shutdown_ordering (.ok ()) true).2.1 rfl,
   (c9_shutdown_ordering (.error zmqError) true).2.2 zmqError rfl⟩

/-- The two SIGINT handlers the app can have installed: `_handle_sigint`
(the Normal state: a first interrupt spawns the confirmation dialog) and
`_signal_stop` (armed force-stop: an interrupt stops the loop at once). -/
inductive SigintHandler
  | handle_sigint
  | signal_stop
deriving DecidableEq, Repr

/-- The mutable signal-related state of the running app: the installed
SIGINT handler, whether the event loop has been asked to stop, whether a
`_confirm_exit` dialog thread is running, and whether a
`_restore_sigint_handler` callback is queued on the main IO loop. -/
structure SignalState where
  sigintHandler : SigintHandler
  loopStopped : Bool
  dialogPending : Bool
  restoreScheduled : Bool
deriving DecidableEq, Repr

/-- State after `init_signal` (lines 444-453): the Normal handler is
installed and nothing else is pending. -/
def init_signal_state : SignalState :=
  { sigintHandler := .handle_sigint, loopStopped := false,
    dialogPending := false, restoreScheduled := false }

/-- Delivery of SIGINT dispatches to the installed handler:
`_handle_sigint` (lines 455-463) reinstalls `_signal_stop` for the ^C^C
case and spawns the confirmation dialog in a background thread;
`_signal_stop` (lines 498-500) stops the IO loop immediately. -/
def deliver_sigint (s : SignalState) : SignalState :=
  match s.sigintHandler with
  | .handle_sigint => { s with sigintHandler := .signal_stop, dialogPending := true }
  | .signal_stop => { s with loopStopped := true }

/-- Python `str.lower()` on a line modelled as its character sequence. -/
def pyLower (line : List Char) : List Char := line.map Char.toLower

/-- Python `s.startswith('y')`: the string is non-empty and its first
character is `y`. -/
def py_startswith_y (line : List Char) : Bool := line.head? == some 'y'

/-- What the confirmation dialog ends up doing. -/
inductive ConfirmAction
  | stopLoop
  | scheduleRestore
deriving DecidableEq, Repr

/-- Embedding of the decision in `_confirm_exit` (lines 469-496): `input`
is `none` when the 5-second `select` timeout elapses with nothing to read,
and `some line` when a line was read (lines are modelled as their character
sequences).  Shutdown is confirmed exactly on
`line.lower().startswith('y') and 'n' not in line.lower()`; every other
outcome falls through to `add_callback(self._restore_sigint_handler)`. -/
def confirm_exit_decision (input : Option (List Char)) : ConfirmAction :=
  match input with
  | some line =>
      if py_startswith_y (pyLower line) && !((pyLower line).contains 'n') then
        .stopLoop
      else
        .scheduleRestore
  | none => .scheduleRestore

/-- Effect of the dialog thread finishing on the signal state: a confirmed
shutdown stops the IO loop; a decline queues the restore callback on the
main loop (the handler itself is only reinstalled when that callback runs
on the main thread). -/
def resolve_dialog (s : SignalState) (input : Option (List Char)) : SignalState :=
  match confirm_exit_decision input with
  | .stopLoop => { s with loopStopped := true, dialogPending := false }
  | .scheduleRestore => { s with restoreScheduled := true, dialogPending := false }

/-- Embedding of `_restore_sigint_handler` (lines 465-467), run as a queued
callback on the main IO loop: reinstalls `_handle_sigint`. -/
def run_restore_callback (s : SignalState) : SignalState :=
  { s with sigintHandler := .handle_sigint, restoreScheduled := false }

/-- C7: the dialog confirms shutdown exactly when the lowered input line
starts with `y` and contains no `n`; on timeout or any other input it
declines: the loop is left running, a restore callback is queued on the
main execution context, and running that callback reinstalls the Normal
(`_handle_sigint`) handler. -/
theorem c7_confirm_dialog (line : List Char) (input : Option (List Char)) (s : SignalState) :
    (confirm_exit_decision (some line) = .stopLoop ↔
       (py_startswith_y (pyLower line) = true ∧ (pyLower line).contains 'n' = false)) ∧
    (confirm_exit_decision none = .scheduleRestore) ∧
    (confirm_exit_decision input = .scheduleRestore →
       (resolve_dialog s input).loopStopped = s.loopStopped ∧
       (resolve_dialog s input).restoreScheduled = true ∧
       (run_restore_callback (resolve_dialog s input)).sigintHandler =
         .handle_sigint) := by
  refine ⟨?_, rfl, ?_⟩
  · rw [confirm_exit_decision]
    rcases hy : py_startswith_y (pyLower line) <;>
      rcases hn : (pyLower line).contains 'n' <;>
        simp [hy, hn]
  · intro h
    rw [resolve_dialog, h]
    exact ⟨rfl, rfl, rfl⟩

/-- C7 witness: the line `"y\n"` confirms; a timeout declines, leaves the
loop running from the initial state, queues the restore callback, and the
callback restores the Normal handler. -/
theorem c7_confirm_dialog_witness :
    confirm_exit_decision (some ['y', '\n']) = .stopLoop ∧
    confirm_exit_decision none = .scheduleRestore ∧
    ((resolve_dialog init_signal_state none).loopStopped =
       init_signal_state.loopStopped ∧
     (resolve_dialog init_signal_state none).restoreScheduled = true ∧
     (run_restore_callback (resolve_dialog init_signal_state none)).sigintHandler =
       SigintHandler.handle_sigint) :=
  ⟨(c7_confirm_dialog ['y', '\n'] none init_signal_state).1.mpr (by decide),
   (c7_confirm_dialog ['y', '\n'] none init_signal_state).2.1,
   (c7_confirm_dialog ['y', '\n'] none init_signal_state).2.2 rfl⟩

/-- C8: with the Normal handler installed, a first SIGINT arms force-stop
(installs `_signal_stop`, spawns the dialog) without stopping the loop, and
a second SIGINT delivered while the confirmation is pending stops the loop
immediately — no dialog input and no timeout is involved. -/
theorem c8_double_sigint_stops (s : SignalState)
    (h : s.sigintHandler = .handle_sigint) :
    (deliver_sigint s).loopStopped = s.loopStopped ∧
    (deliver_sigint s).sigintHandler = .signal_stop ∧
    (deliver_sigint s).dialogPending = true ∧
    (deliver_sigint (deliver_sigint s)).loopStopped = true := by
  rw [deliver_sigint, h]
  exact ⟨rfl, rfl, rfl, rfl⟩

/-- C8 witness: from the freshly initialized signal state, the first SIGINT
does not stop the loop and the second one does. -/
theorem c8_double_sigint_stops_witness :
    (deliver_sigint init_signal_state).loopStopped =
      init_signal_state.loopStopped ∧
    (deliver_sigint (deliver_sigint init_signal_state)).loopStopped = true :=
  ⟨(c8_double_sigint_stops init_signal_state rfl).1,
   (c8_double_sigint_stops init_signal_state rfl).2.2.2⟩
